import Mathlib

/-!
Shallow embedding of `src/main.py` of the pandAI repository: a FastAPI
backend with three routes (`GET /`, `POST /search-lessons`,
`POST /generate-quiz-preview`).  The two external services (the Gemini
embedding/generation API and the Supabase vector store) are modelled as
oracle functions in an environment `Env`; a call that may raise a Python
exception is an `Except Exc` value.  Each handler is a pure Lean function
of the environment and the request, returning its result together with
the trace of outbound calls it made, so that claims such as "never
invokes the generative model" become statements about the trace.
-/

/-- A Python exception, as far as the claims need to distinguish them:
a `KeyError` with its missing key, or any other exception with a message. -/
inductive Exc where
  | keyError (key : String)
  | other (msg : String)
deriving DecidableEq, Repr

/-- A record returned by the document store (`response.data` element):
a Python dict with string fields, modelled as an association list.
The store controls its shape; a `content` key may or may not be present. -/
def Passage := List (String × String)
deriving DecidableEq, Repr

/-- Python `item[k]` on a passage dict: the value at key `k`, or a
`KeyError` when the key is absent. -/
def Passage.getItem (item : Passage) (k : String) : Except Exc String :=
  match List.find? (fun kv => kv.1 = k) item with
  | some kv => .ok kv.2
  | none => .error (.keyError k)

/-- One outbound network call, with the parameters the source passes. -/
inductive Call where
  /-- `genai.embed_content(model=…, content=…, task_type=…, output_dimensionality=…)` -/
  | embedCall (model : String) (content : String) (taskType : String)
      (outputDimensionality : ℕ)
  /-- `supabase.rpc("match_documents", {query_embedding, match_threshold, match_count})` -/
  | rpcCall (fn : String) (queryEmbedding : List ℚ) (matchThreshold : ℚ)
      (matchCount : ℕ)
  /-- `genai.GenerativeModel(model, generation_config).generate_content(prompt)` -/
  | generateCall (model : String) (temperature : ℚ) (responseMimeType : String)
      (prompt : String)
deriving DecidableEq, Repr

/-- Whether a call is a call to the generative model. -/
def Call.isGenerateCall : Call → Bool
  | .generateCall _ _ _ _ => true
  | _ => false

/-- A JSON value as the routes produce them: a boolean, a string, or the
raw list of passages forwarded by `/search-lessons`. -/
inductive JsonVal where
  | bool (b : Bool)
  | str (s : String)
  | passages (l : List Passage)
deriving DecidableEq, Repr

/-- A JSON object payload, as an ordered list of key/value pairs. -/
def Payload := List (String × JsonVal)
deriving DecidableEq, Repr

/-- The observable outcome of one request to a route: a JSON payload
(FastAPI serves it with HTTP status 200), a raised `HTTPException`
(status plus detail string), or an exception that escaped the handler
uncaught. -/
inductive RouteResult where
  | json (p : Payload)
  | httpException (status : ℕ) (detail : String)
  | uncaught (e : Exc)
deriving DecidableEq, Repr

/-- The process-wide configuration and the behaviour of the two external
services during one request.
`supabase` is whether the Supabase client handle is non-`None`
(its construction at startup may fail, leaving `supabase = None`).
`embedResult q` is the value of `genai.embed_content(…)["embedding"]`
for query `q`, or the exception that call raises.
`rpcResult v` is `supabase.rpc("match_documents", …).execute().data` for
query vector `v`, or the exception raised.
`genResult p` is `model.generate_content(p).text` for prompt `p`, or the
exception raised by the call or by reading `.text`. -/
structure Env where
  supabase : Bool
  embedResult : String → Except Exc (List ℚ)
  rpcResult : List ℚ → Except Exc (List Passage)
  genResult : String → Except Exc String

/-- The request body of the two POST routes (`class QuizRequest`): a
single free-text `query` field. -/
structure QuizRequest where
  query : String

/-- `buscar_contexto(pergunta_usuario)` from `src/main.py`:
if the Supabase handle is `None`, return `[]` at once; otherwise embed
the query (`models/gemini-embedding-001`, `retrieval_query`, 768
dimensions) and call the `match_documents` RPC with threshold `0.5` and
count `3`; any exception in that `try` block yields `[]`.  Returns the
passages together with the trace of outbound calls made. -/
def buscar_contexto (env : Env) (pergunta_usuario : String) :
    List Passage × List Call :=
  if !env.supabase then ([], [])
  else
    let ec := Call.embedCall "models/gemini-embedding-001" pergunta_usuario
      "retrieval_query" 768
    match env.embedResult pergunta_usuario with
    | .error _ => ([], [ec])
    | .ok vetor_pergunta =>
      let rc := Call.rpcCall "match_documents" vetor_pergunta (1/2 : ℚ) 3
      match env.rpcResult vetor_pergunta with
      | .error _ => ([], [ec, rc])
      | .ok data => (data, [ec, rc])

/-- The per-passage delimiter applied in the list comprehension on line
96: `f"--- TRECHO DE AULA ---\n{item['content']}"`. -/
def trecho (c : String) : String := "--- TRECHO DE AULA ---\n" ++ c

/-- The list comprehension on line 96,
`[f"--- TRECHO DE AULA ---\n{item['content']}" for item in contexto]`:
it evaluates `item['content']` left to right and raises a `KeyError` at
the first passage lacking the key. -/
def trechos : List Passage → Except Exc (List String)
  | [] => .ok []
  | item :: rest => do
      let c ← Passage.getItem item "content"
      let cs ← trechos rest
      pure (trecho c :: cs)

/-- Line 96: `"\n\n".join(…)` applied to the comprehension; this line
sits outside any `try` block, so its `KeyError` propagates. -/
def texto_base_of (contexto : List Passage) : Except Exc String :=
  (trechos contexto).map (String.intercalate "\n\n")

/-- The part of the prompt f-string (lines 106–111) before `{texto_base}`. -/
def promptPrefix : String :=
  "\n    Você é um sistema gerador de avaliações técnicas.\n    Analise o contexto abaixo e gere um quiz técnico no formato JSON estrito.\n\n    CONTEXTO:\n    "

/-- The part of the prompt f-string (lines 112–137) after `{texto_base}`,
with Python's `{{`/`}}` escapes rendered as the literal braces they
produce. -/
def promptSuffix : String :=
  "\n\n    ESTRUTURA DE RESPOSTA OBRIGATÓRIA (JSON):\n    \x7b\n      \"quiz_title\": \"Título criativo relacionado ao tema\",\n      \"description\": \"Uma breve descrição do que será avaliado\",\n      \"questions\": [\n        \x7b\n          \"content\": \"Enunciado da pergunta aqui?\",\n          \"options\": [\n            \x7b \"content\": \"Opção A\", \"is_correct\": false \x7d,\n            \x7b \"content\": \"Opção B (correta)\", \"is_correct\": true \x7d,\n            \x7b \"content\": \"Opção C\", \"is_correct\": false \x7d,\n            \x7b \"content\": \"Opção D\", \"is_correct\": false \x7d,\n            \x7b \"content\": \"Opção E\", \"is_correct\": false \x7d\n          ]\n        \x7d\n      ]\n    \x7d\n\n    REGRAS:\n    1. Crie exatamente 3 perguntas.\n    2. Cada pergunta deve ter 5 alternativas.\n    3. Apenas uma alternativa correta (\"is_correct\": true) por pergunta.\n    4. Baseie-se APENAS no contexto fornecido.\n    5. NÃO inclua markdown (```json), apenas o objeto JSON puro.\n    "

/-- The full prompt string of lines 106–137 as a function of the
interpolated `texto_base`. -/
def quizPrompt (texto_base : String) : String :=
  promptPrefix ++ texto_base ++ promptSuffix

/-- The fixed payload returned when retrieval yields no context
(lines 90–94). -/
def noContentPayload : Payload :=
  [("success", .bool false),
   ("message", .str "Não encontramos conteúdo suficiente nas aulas para este tema.")]

/-- The payload returned on a successful generation (lines 142–145). -/
def successPayload (text : String) : Payload :=
  [("success", .bool true), ("quiz_content", .str text)]

/-- `POST /generate-quiz-preview` (`generate_quiz_route`, lines 83–148):
retrieve context; short-circuit to `noContentPayload` when it is empty;
build the delimited text block and the prompt (a missing `content` key
raises an uncaught `KeyError` here); configure the generative model
(`models/gemini-2.5-flash`, temperature `0.2`, JSON mime type) and call
it once; a raised exception becomes `HTTPException(500, "Erro interno ao
gerar quiz.")`, a returned text becomes the success payload. -/
def generate_quiz_route (env : Env) (request : QuizRequest) :
    RouteResult × List Call :=
  let topic := request.query
  let res := buscar_contexto env topic
  let contexto := res.1
  if contexto = [] then (.json noContentPayload, res.2)
  else
    match texto_base_of contexto with
    | .error e => (.uncaught e, res.2)
    | .ok texto_base =>
      let prompt := quizPrompt texto_base
      let gc := Call.generateCall "models/gemini-2.5-flash" (1/5 : ℚ)
        "application/json" prompt
      match env.genResult prompt with
      | .error _ =>
          (.httpException 500 "Erro interno ao gerar quiz.", res.2 ++ [gc])
      | .ok text => (.json (successPayload text), res.2 ++ [gc])

/-- `POST /search-lessons` (`search_lessons_route`, lines 78–81): call
`buscar_contexto` and wrap its raw result in `{"results": …}`. -/
def search_lessons_route (env : Env) (request : QuizRequest) :
    RouteResult × List Call :=
  let res := buscar_contexto env request.query
  (.json [("results", .passages res.1)], res.2)

/-- `GET /` (`home`, lines 74–76).  It reads no global state; the `Env`
parameter stands for the ambient process configuration it ignores. -/
def home (_env : Env) : RouteResult :=
  .json [("message", .str "API do PandAI está online e rodando! 🐼🚀")]

/-! ## Helper lemmas, shared across the claim theorems -/

/-- The embedding call `buscar_contexto` issues, for query `q`. -/
def embedCallFor (q : String) : Call :=
  .embedCall "models/gemini-embedding-001" q "retrieval_query" 768

/-- The RPC call `buscar_contexto` issues, for query vector `v`. -/
def rpcCallFor (v : List ℚ) : Call :=
  .rpcCall "match_documents" v (1/2 : ℚ) 3

/-- If the embedding call raises, or the RPC raises on the vector the
embedding produced, then `buscar_contexto` returns the empty list. -/
theorem buscar_contexto_fail_empty (env : Env) (q : String)
    (h : (∃ e, env.embedResult q = .error e) ∨
         (∃ v e, env.embedResult q = .ok v ∧ env.rpcResult v = .error e)) :
    (buscar_contexto env q).1 = [] := by
  unfold buscar_contexto
  rcases h with ⟨e, he⟩ | ⟨v, e, hv, hr⟩
  · cases hs : env.supabase <;> simp [hs, he]
  · cases hs : env.supabase <;> simp [hs, hv, hr]

/-- The trace of `buscar_contexto`: nothing, the embedding call alone, or
the embedding call followed by the RPC on the returned vector. -/
theorem buscar_contexto_trace (env : Env) (q : String) :
    (buscar_contexto env q).2 = [] ∨
    (buscar_contexto env q).2 = [embedCallFor q] ∨
    ∃ v, env.embedResult q = .ok v ∧
      (buscar_contexto env q).2 = [embedCallFor q, rpcCallFor v] := by
  unfold buscar_contexto
  cases hs : env.supabase
  · simp
  · rcases he : env.embedResult q with e | v
    · simp [he, embedCallFor]
    · rcases hr : env.rpcResult v with e | data <;>
        · refine Or.inr (Or.inr ⟨v, ?_, ?_⟩)
          · rfl
          · simp [hr, embedCallFor, rpcCallFor]

/-- No call issued by `buscar_contexto` is a generative-model call. -/
theorem buscar_contexto_no_generate (env : Env) (q : String) :
    ∀ c ∈ (buscar_contexto env q).2, c.isGenerateCall = false := by
  rcases buscar_contexto_trace env q with h | h | ⟨v, _, h⟩ <;> rw [h] <;>
    simp [embedCallFor, rpcCallFor, Call.isGenerateCall]

/-! ## Concrete environments used by witness theorems -/

/-- Supabase up, embedding works, the store finds no matches. -/
def envNoMatches : Env :=
  { supabase := true
    embedResult := fun _ => .ok [1]
    rpcResult := fun _ => .ok []
    genResult := fun _ => .ok "quiz" }

/-- Supabase up, but the embedding call raises. -/
def envEmbedFail : Env :=
  { supabase := true
    embedResult := fun _ => .error (.other "network down")
    rpcResult := fun _ => .ok []
    genResult := fun _ => .ok "quiz" }

/-- The Supabase client handle failed to construct (`supabase = None`). -/
def envNoSupabase : Env :=
  { supabase := false
    embedResult := fun _ => .ok [1]
    rpcResult := fun _ => .ok []
    genResult := fun _ => .ok "quiz" }

/-- Supabase up, one retrieved passage has no `content` key. -/
def envMalformedPassage : Env :=
  { supabase := true
    embedResult := fun _ => .ok [1]
    rpcResult := fun _ => .ok [[("id", "7")]]
    genResult := fun _ => .ok "quiz" }

/-! ## Claim theorems -/

/-- C1: when the Context Retriever returns an empty list,
`POST /generate-quiz-preview` returns exactly the success-shaped payload
`{success: false, message: "Não encontramos conteúdo suficiente nas aulas
para este tema."}` and its call trace contains no generative-model call. -/
theorem generate_quiz_empty_context_short_circuits (env : Env) (q : String)
    (h : (buscar_contexto env q).1 = []) :
    (generate_quiz_route env ⟨q⟩).1 =
      .json [("success", .bool false),
             ("message", .str "Não encontramos conteúdo suficiente nas aulas para este tema.")] ∧
    ∀ c ∈ (generate_quiz_route env ⟨q⟩).2, c.isGenerateCall = false := by
  have heq : generate_quiz_route env ⟨q⟩ =
      (.json noContentPayload, (buscar_contexto env q).2) := by
    unfold generate_quiz_route
    simp [h]
  rw [heq]
  exact ⟨by simp [noContentPayload], buscar_contexto_no_generate env q⟩

/-- Witness for C1 at a concrete environment where the store returns `[]`. -/
theorem generate_quiz_empty_context_short_circuits_witness :
    (buscar_contexto envNoMatches "unknown-topic-xyz").1 = [] ∧
    ((generate_quiz_route envNoMatches ⟨"unknown-topic-xyz"⟩).1 =
      .json [("success", .bool false),
             ("message", .str "Não encontramos conteúdo suficiente nas aulas para este tema.")] ∧
     ∀ c ∈ (generate_quiz_route envNoMatches ⟨"unknown-topic-xyz"⟩).2,
       c.isGenerateCall = false) :=
  ⟨rfl, generate_quiz_empty_context_short_circuits envNoMatches "unknown-topic-xyz" rfl⟩

/-- C2: if the embedding call raises, or the similarity-search call raises
on the vector the embedding produced, `buscar_contexto` returns the empty
list.  (It is a total Lean function, so no exception propagates to its
caller by construction.) -/
theorem buscar_contexto_absorbs_exceptions (env : Env) (q : String)
    (h : (∃ e, env.embedResult q = .error e) ∨
         (∃ v e, env.embedResult q = .ok v ∧ env.rpcResult v = .error e)) :
    (buscar_contexto env q).1 = [] :=
  buscar_contexto_fail_empty env q h

/-- Witness for C2 at a concrete environment whose embedding call raises. -/
theorem buscar_contexto_absorbs_exceptions_witness :
    ((∃ e, envEmbedFail.embedResult "loops" = .error e) ∨
     (∃ v e, envEmbedFail.embedResult "loops" = .ok v ∧
       envEmbedFail.rpcResult v = .error e)) ∧
    (buscar_contexto envEmbedFail "loops").1 = [] :=
  ⟨Or.inl ⟨.other "network down", rfl⟩,
   buscar_contexto_absorbs_exceptions envEmbedFail "loops"
     (Or.inl ⟨.other "network down", rfl⟩)⟩

/-- C8: `GET /` ignores the process configuration entirely and returns the
same fixed liveness payload (served with HTTP 200) on every call; being a
total function of no request data, it cannot fail. -/
theorem home_fixed_payload (env : Env) :
    home env =
      .json [("message", .str "API do PandAI está online e rodando! 🐼🚀")] :=
  rfl

/-- C9: when the Supabase handle is `None`, `buscar_contexto` returns `[]`
with an empty call trace (no embedding call, no search call), and
`POST /generate-quiz-preview` returns the not-enough-content payload with
an empty call trace (no outbound network call at all). -/
theorem no_supabase_no_calls (env : Env) (q : String)
    (hs : env.supabase = false) :
    buscar_contexto env q = ([], []) ∧
    generate_quiz_route env ⟨q⟩ = (.json noContentPayload, []) := by
  have hb : buscar_contexto env q = ([], []) := by
    unfold buscar_contexto
    simp [hs]
  refine ⟨hb, ?_⟩
  unfold generate_quiz_route
  simp [hb]

/-- Witness for C9 at a concrete environment with no Supabase handle. -/
theorem no_supabase_no_calls_witness :
    envNoSupabase.supabase = false ∧
    (buscar_contexto envNoSupabase "loops" = ([], []) ∧
     generate_quiz_route envNoSupabase ⟨"loops"⟩ = (.json noContentPayload, [])) :=
  ⟨rfl, no_supabase_no_calls envNoSupabase "loops" rfl⟩

/-- C10: a concrete retrieval result whose single passage lacks a
`content` key makes `POST /generate-quiz-preview` end in an uncaught
`KeyError` (raised while building the prompt text, outside any `try`
block), not in either handled outcome; the generative model is never
called on the way. -/
theorem missing_content_key_uncaught :
    (generate_quiz_route envMalformedPassage ⟨"loops"⟩).1 =
      .uncaught (.keyError "content") ∧
    ∀ c ∈ (generate_quiz_route envMalformedPassage ⟨"loops"⟩).2,
      c.isGenerateCall = false := by
  refine ⟨rfl, ?_⟩
  decide

/-- Supabase up, one passage with content, generation raises. -/
def envGenFail : Env :=
  { supabase := true
    embedResult := fun _ => .ok [1]
    rpcResult := fun _ => .ok [[("content", "A")]]
    genResult := fun _ => .error (.other "boom") }

/-- Supabase up, one passage with content, generation succeeds. -/
def envGenOk : Env :=
  { supabase := true
    embedResult := fun _ => .ok [1]
    rpcResult := fun _ => .ok [[("content", "A")]]
    genResult := fun _ => .ok "QUIZ_JSON" }

/-- Supabase up, three passages with content, generation succeeds. -/
def envThreePassages : Env :=
  { supabase := true
    embedResult := fun _ => .ok [1]
    rpcResult := fun _ =>
      .ok [[("content", "A")], [("content", "B")], [("content", "C")]]
    genResult := fun _ => .ok "QUIZ_JSON" }

/-- C3: when retrieval yields context, the prompt builds, and the
generative call (or reading its text) raises any exception, the endpoint
raises `HTTPException` with status 500 and the fixed detail
`"Erro interno ao gerar quiz."`, whatever the exception was. -/
theorem generate_quiz_gen_failure_http_500 (env : Env) (q tb : String)
    (e : Exc)
    (hc : (buscar_contexto env q).1 ≠ [])
    (ht : texto_base_of (buscar_contexto env q).1 = .ok tb)
    (hg : env.genResult (quizPrompt tb) = .error e) :
    (generate_quiz_route env ⟨q⟩).1 =
      .httpException 500 "Erro interno ao gerar quiz." := by
  unfold generate_quiz_route
  simp [hc, ht, hg]

/-- Witness for C3 at a concrete environment whose generative call raises. -/
theorem generate_quiz_gen_failure_http_500_witness :
    (buscar_contexto envGenFail "loops").1 ≠ [] ∧
    texto_base_of (buscar_contexto envGenFail "loops").1 =
      .ok "--- TRECHO DE AULA ---\nA" ∧
    envGenFail.genResult (quizPrompt "--- TRECHO DE AULA ---\nA") =
      .error (.other "boom") ∧
    (generate_quiz_route envGenFail ⟨"loops"⟩).1 =
      .httpException 500 "Erro interno ao gerar quiz." :=
  ⟨by decide, rfl, rfl,
   generate_quiz_gen_failure_http_500 envGenFail "loops"
     "--- TRECHO DE AULA ---\nA" (.other "boom") (by decide) rfl rfl⟩

/-- C4: when retrieval yields a non-empty passage list, the prompt builds,
and the generative call succeeds with text `t`, the endpoint returns the
payload `{success: true, quiz_content: t}`. -/
theorem generate_quiz_success_payload (env : Env) (q tb t : String)
    (hc : (buscar_contexto env q).1 ≠ [])
    (ht : texto_base_of (buscar_contexto env q).1 = .ok tb)
    (hg : env.genResult (quizPrompt tb) = .ok t) :
    (generate_quiz_route env ⟨q⟩).1 =
      .json [("success", .bool true), ("quiz_content", .str t)] := by
  unfold generate_quiz_route
  simp [hc, ht, hg, successPayload]

/-- Witness for C4 at a concrete environment whose generation succeeds. -/
theorem generate_quiz_success_payload_witness :
    (buscar_contexto envGenOk "loops").1 ≠ [] ∧
    texto_base_of (buscar_contexto envGenOk "loops").1 =
      .ok "--- TRECHO DE AULA ---\nA" ∧
    envGenOk.genResult (quizPrompt "--- TRECHO DE AULA ---\nA") =
      .ok "QUIZ_JSON" ∧
    (generate_quiz_route envGenOk ⟨"loops"⟩).1 =
      .json [("success", .bool true), ("quiz_content", .str "QUIZ_JSON")] :=
  ⟨by decide, rfl, rfl,
   generate_quiz_success_payload envGenOk "loops"
     "--- TRECHO DE AULA ---\nA" "QUIZ_JSON" (by decide) rfl rfl⟩

/-- C6: `POST /search-lessons` wraps the raw retriever output (possibly
empty) in `{"results": …}` — it is a total function, so it cannot fail —
and when the embedding or search call raises, that output is the empty
list. -/
theorem search_lessons_forwards_retriever (env : Env) (q : String) :
    (search_lessons_route env ⟨q⟩).1 =
      .json [("results", .passages (buscar_contexto env q).1)] ∧
    (((∃ e, env.embedResult q = .error e) ∨
      (∃ v e, env.embedResult q = .ok v ∧ env.rpcResult v = .error e)) →
      (search_lessons_route env ⟨q⟩).1 = .json [("results", .passages [])]) := by
  constructor
  · rfl
  · intro h
    have hempty := buscar_contexto_fail_empty env q h
    simp [search_lessons_route, hempty]

/-- Witness for C6 at a concrete environment whose embedding call raises. -/
theorem search_lessons_forwards_retriever_witness :
    (search_lessons_route envEmbedFail ⟨"loops"⟩).1 =
      .json [("results", .passages (buscar_contexto envEmbedFail "loops").1)] ∧
    (((∃ e, envEmbedFail.embedResult "loops" = .error e) ∨
      (∃ v e, envEmbedFail.embedResult "loops" = .ok v ∧
        envEmbedFail.rpcResult v = .error e)) →
      (search_lessons_route envEmbedFail ⟨"loops"⟩).1 =
        .json [("results", .passages [])]) :=
  search_lessons_forwards_retriever envEmbedFail "loops"

/-- C7: with a live Supabase handle, `buscar_contexto` first requests an
embedding with model `models/gemini-embedding-001`, the query text, task
type `retrieval_query`, and output dimensionality 768; and whenever that
call returns a vector `v`, it then invokes the `match_documents` RPC on
`v` with similarity threshold `0.5` and result cap `3`, and nothing else. -/
theorem buscar_contexto_fixed_parameters (env : Env) (q : String)
    (hs : env.supabase = true) :
    ∃ rest, (buscar_contexto env q).2 =
        Call.embedCall "models/gemini-embedding-001" q "retrieval_query" 768
          :: rest ∧
      ∀ v, env.embedResult q = .ok v →
        rest = [Call.rpcCall "match_documents" v (1/2 : ℚ) 3] := by
  unfold buscar_contexto
  rcases he : env.embedResult q with e | v
  · refine ⟨[], by simp [hs], ?_⟩
    intro v hv
    cases hv
  · refine ⟨[Call.rpcCall "match_documents" v (1/2 : ℚ) 3], ?_, ?_⟩
    · rcases hr : env.rpcResult v with e | d <;> simp [hs, hr]
    · intro w hw
      injection hw with hvw
      rw [hvw]

/-- Witness for C7 at a concrete environment with a live handle. -/
theorem buscar_contexto_fixed_parameters_witness :
    envNoMatches.supabase = true ∧
    ∃ rest, (buscar_contexto envNoMatches "loops").2 =
        Call.embedCall "models/gemini-embedding-001" "loops" "retrieval_query"
          768 :: rest ∧
      ∀ v, envNoMatches.embedResult "loops" = .ok v →
        rest = [Call.rpcCall "match_documents" v (1/2 : ℚ) 3] :=
  ⟨rfl, buscar_contexto_fixed_parameters envNoMatches "loops" rfl⟩

/-- `String.intercalate` on a three-element list, at the level of the
underlying character lists. -/
theorem intercalate_three_data (s a b c : String) :
    (String.intercalate s [a, b, c]).data =
      a.data ++ (s.data ++ (b.data ++ (s.data ++ c.data))) := by
  simp [String.intercalate, String.intercalate.go, String.data_append]

/-- C5: when retrieval yields exactly the three passages `p₁ p₂ p₃`, whose
`content` fields are `c₁ c₂ c₃`, and the generative call succeeds with
text `t`, the endpoint builds one prompt containing all three delimited
passage contents, issues exactly one generative-model call (model
`models/gemini-2.5-flash`, temperature `0.2`, JSON mime type, that
prompt), and returns `{success: true, quiz_content: t}`. -/
theorem generate_quiz_three_passages (env : Env) (q : String)
    (p₁ p₂ p₃ : Passage) (c₁ c₂ c₃ tb t : String)
    (h : (buscar_contexto env q).1 = [p₁, p₂, p₃])
    (h₁ : Passage.getItem p₁ "content" = .ok c₁)
    (h₂ : Passage.getItem p₂ "content" = .ok c₂)
    (h₃ : Passage.getItem p₃ "content" = .ok c₃)
    (ht : texto_base_of [p₁, p₂, p₃] = .ok tb)
    (hg : env.genResult (quizPrompt tb) = .ok t) :
    (generate_quiz_route env ⟨q⟩).1 =
      .json [("success", .bool true), ("quiz_content", .str t)] ∧
    (generate_quiz_route env ⟨q⟩).2.filter Call.isGenerateCall =
      [Call.generateCall "models/gemini-2.5-flash" (1/5 : ℚ)
        "application/json" (quizPrompt tb)] ∧
    ((trecho c₁).data <:+: (quizPrompt tb).data ∧
     (trecho c₂).data <:+: (quizPrompt tb).data ∧
     (trecho c₃).data <:+: (quizPrompt tb).data) := by
  have htb : tb = String.intercalate "\n\n" [trecho c₁, trecho c₂, trecho c₃] := by
    have hcomp : texto_base_of [p₁, p₂, p₃] =
        .ok (String.intercalate "\n\n" [trecho c₁, trecho c₂, trecho c₃]) := by
      simp only [texto_base_of, trechos, h₁, h₂, h₃]
      rfl
    rw [hcomp] at ht
    exact (Except.ok.inj ht).symm
  have ht' : texto_base_of (buscar_contexto env q).1 = .ok tb := by
    rw [h]; exact ht
  have heq : generate_quiz_route env ⟨q⟩ =
      (.json (successPayload t),
       (buscar_contexto env q).2 ++
         [Call.generateCall "models/gemini-2.5-flash" (1/5 : ℚ)
           "application/json" (quizPrompt tb)]) := by
    unfold generate_quiz_route
    simp [h, ht, hg]
  have hnilf : (buscar_contexto env q).2.filter Call.isGenerateCall = [] :=
    List.filter_eq_nil_iff.mpr (fun c hc => by
      simp [buscar_contexto_no_generate env q c hc])
  have hsub : tb.data <:+: (quizPrompt tb).data := by
    refine ⟨promptPrefix.data, promptSuffix.data, ?_⟩
    simp [quizPrompt, String.data_append]
  have htbd : tb.data =
      (trecho c₁).data ++ ("\n\n".data ++
        ((trecho c₂).data ++ ("\n\n".data ++ (trecho c₃).data))) := by
    rw [htb, intercalate_three_data]
  refine ⟨?_, ?_, ?_, ?_, ?_⟩
  · rw [heq]; rfl
  · rw [heq]
    simp [List.filter_append, hnilf, Call.isGenerateCall]
  · refine List.IsInfix.trans ?_ hsub
    rw [htbd]
    exact ⟨[], "\n\n".data ++ ((trecho c₂).data ++ ("\n\n".data ++ (trecho c₃).data)),
      by simp⟩
  · refine List.IsInfix.trans ?_ hsub
    rw [htbd]
    exact ⟨(trecho c₁).data ++ "\n\n".data, "\n\n".data ++ (trecho c₃).data,
      by simp⟩
  · refine List.IsInfix.trans ?_ hsub
    rw [htbd]
    exact ⟨(trecho c₁).data ++ ("\n\n".data ++ ((trecho c₂).data ++ "\n\n".data)),
      [], by simp⟩

/-- Witness for C5 at a concrete environment returning three passages. -/
theorem generate_quiz_three_passages_witness :
    (buscar_contexto envThreePassages "loops").1 =
      [[("content", "A")], [("content", "B")], [("content", "C")]] ∧
    Passage.getItem [("content", "A")] "content" = .ok "A" ∧
    Passage.getItem [("content", "B")] "content" = .ok "B" ∧
    Passage.getItem [("content", "C")] "content" = .ok "C" ∧
    texto_base_of [[("content", "A")], [("content", "B")], [("content", "C")]] =
      .ok "--- TRECHO DE AULA ---\nA\n\n--- TRECHO DE AULA ---\nB\n\n--- TRECHO DE AULA ---\nC" ∧
    envThreePassages.genResult
      (quizPrompt "--- TRECHO DE AULA ---\nA\n\n--- TRECHO DE AULA ---\nB\n\n--- TRECHO DE AULA ---\nC") =
      .ok "QUIZ_JSON" ∧
    ((generate_quiz_route envThreePassages ⟨"loops"⟩).1 =
      .json [("success", .bool true), ("quiz_content", .str "QUIZ_JSON")] ∧
    (generate_quiz_route envThreePassages ⟨"loops"⟩).2.filter Call.isGenerateCall =
      [Call.generateCall "models/gemini-2.5-flash" (1/5 : ℚ)
        "application/json"
        (quizPrompt "--- TRECHO DE AULA ---\nA\n\n--- TRECHO DE AULA ---\nB\n\n--- TRECHO DE AULA ---\nC")] ∧
    ((trecho "A").data <:+:
       (quizPrompt "--- TRECHO DE AULA ---\nA\n\n--- TRECHO DE AULA ---\nB\n\n--- TRECHO DE AULA ---\nC").data ∧
     (trecho "B").data <:+:
       (quizPrompt "--- TRECHO DE AULA ---\nA\n\n--- TRECHO DE AULA ---\nB\n\n--- TRECHO DE AULA ---\nC").data ∧
     (trecho "C").data <:+:
       (quizPrompt "--- TRECHO DE AULA ---\nA\n\n--- TRECHO DE AULA ---\nB\n\n--- TRECHO DE AULA ---\nC").data)) :=
  ⟨rfl, rfl, rfl, rfl, rfl, rfl,
   generate_quiz_three_passages envThreePassages "loops"
     [("content", "A")] [("content", "B")] [("content", "C")] "A" "B" "C"
     "--- TRECHO DE AULA ---\nA\n\n--- TRECHO DE AULA ---\nB\n\n--- TRECHO DE AULA ---\nC"
     "QUIZ_JSON" rfl rfl rfl rfl rfl rfl⟩
